import Mathlib

/-!
Verification model of the Agri-Sarthi repository.

Shallow embedding of the pure logic of `agents.py`, `build_vector_db.py` and
`main.py`.  External services (HTTP, SQLite engine, ChromaDB, the sentence
embedder, whisper and the local LLM) are opaque collaborators: the database is
modelled as explicit lists of rows in insertion (rowid) order, network
responses as `Option`-valued parameters (`none` = any network/parse failure),
and the LLM as an optional opaque function.
-/

namespace AgriSarthi

/-! ## String primitives

SQLite's `LOWER` and the ASCII case folding relevant to the code's keyword
tables lower only the ASCII range `A`-`Z`; Devanagari text is untouched, which
also matches Python's `str.lower()` on the concrete keywords appearing in the
code. -/

/-- ASCII lower-casing of a single character (SQLite `LOWER`, and Python
`str.lower()` restricted to ASCII; same body as core `Char.toLower`). -/
def lowChar (c : Char) : Char :=
  if c.toNat ≥ 65 ∧ c.toNat ≤ 90 then Char.ofNat (c.toNat + 32) else c

/-- ASCII lower-casing of a string. -/
def lowStr (s : String) : String :=
  ⟨s.data.map lowChar⟩

/-- `listHasPre n h` decides whether `n` is a prefix of `h`. -/
def listHasPre : List Char → List Char → Bool
  | [], _ => true
  | _ :: _, [] => false
  | a :: as, b :: bs => a == b && listHasPre as bs

/-- `listHasSub n h` decides whether `n` occurs as a contiguous sublist of
`h` (Python's `n in h` on strings, via `String.data`). -/
def listHasSub (n h : List Char) : Bool :=
  h.tails.any (fun s => listHasPre n s)

/-- Python's substring operator `needle in hay`. -/
def strHasSub (needle hay : String) : Bool :=
  listHasSub needle.data hay.data

/-- Python's `hay.startswith(pre)`. -/
def strStartsWith (hay pre : String) : Bool :=
  listHasPre pre.data hay.data

/-- SQL `LIKE` pattern matching: `%` matches any sequence of characters, `_`
matches exactly one character, every other pattern character matches itself.
Case folding is applied by the caller (the query lowers both sides). -/
def likeMatch : List Char → List Char → Bool
  | [], t => t.isEmpty
  | c :: ps, t =>
    if c = '%' then t.tails.any (fun s => likeMatch ps s)
    else
      match t with
      | [] => false
      | d :: ts => (if c = '_' then true else c == d) && likeMatch ps ts

/-- `LIKE` at the `String` level. -/
def strLike (pat text : String) : Bool :=
  likeMatch pat.data text.data

/-- Python's `sep.join(items)`. -/
def joinSep (sep : String) : List String → String
  | [] => ""
  | [s] => s
  | s :: t :: rest => s ++ sep ++ joinSep sep (t :: rest)

/-! ## `agents.py`

The SQLite tables are modelled as Lean lists in insertion (rowid) order, which
is the order an unordered `SELECT` scans them in.  A table wrapped in `Option`
distinguishes a present table (`some rows`) from one the ETL has not created
(`none`). -/

/-- A row of `crop_info` as produced by the ETL (`to_sql(..., if_exists="replace")`
writes exactly the DataFrame columns; `crop` and `location` are always
populated, the remaining columns are nullable `TEXT`). -/
structure CropRow where
  crop : String
  location : String
  season : Option String
  sowing_period : Option String
  harvesting_period : Option String
  irrigation_schedule : Option String
  fertilizer : Option String
  pests : Option String
deriving DecidableEq, Repr

/-- The `WHERE` predicate of `get_crop_advice`:
`LOWER(crop) = LOWER(?) AND LOWER(location) LIKE LOWER('%' || ? || '%')`. -/
def cropRowMatches (crop location : String) (r : CropRow) : Bool :=
  (lowStr r.crop == lowStr crop) &&
    strLike (lowStr ("%" ++ location ++ "%")) (lowStr r.location)

/-- `agents.get_crop_advice`: `SELECT ... FROM crop_info WHERE ... LIMIT 1`,
returning the first matching row (`none` models the empty dict). -/
def get_crop_advice (db : List CropRow) (crop location : String) : Option CropRow :=
  (db.filter (cropRowMatches crop location)).head?

/-- The lookup as the specification words it: case-insensitive equality on the
crop and case-insensitive *substring* match on the location.  Used only to
compare the code's `LIKE`-based behaviour against the spec's description. -/
def crop_lookup_substring_described (db : List CropRow) (crop location : String) :
    Option CropRow :=
  (db.filter (fun r =>
    (lowStr r.crop == lowStr crop) &&
      strHasSub (lowStr location) (lowStr r.location))).head?

/-- A row of `pest_info` (all four columns are nullable `TEXT`). -/
structure PestRow where
  pest_name : Option String
  affected_crop : Option String
  symptoms : Option String
  management_advice : Option String
deriving DecidableEq, Repr

/-- `LOWER(affected_crop) = LOWER(?)`; a `NULL` crop never compares equal. -/
def pestRowMatches (crop : String) (r : PestRow) : Bool :=
  match r.affected_crop with
  | none => false
  | some s => lowStr s == lowStr crop

/-- SQLite `ORDER BY pest_name ASC` key order on a nullable `TEXT` column:
`NULL` sorts first, then byte-wise (= code-point-wise for UTF-8) text order. -/
def optStrLE : Option String → Option String → Prop
  | none, _ => True
  | some _, none => False
  | some x, some y => x ≤ y

instance instDecOptStrLE : ∀ a b, Decidable (optStrLE a b)
  | none, _ => isTrue trivial
  | some _, none => isFalse (fun h => h)
  | some x, some y => inferInstanceAs (Decidable (x ≤ y))

/-- Row order used by `ORDER BY pest_name ASC`. -/
def pestLE (a b : PestRow) : Prop :=
  optStrLE a.pest_name b.pest_name

instance : DecidableRel pestLE := fun _ _ => instDecOptStrLE _ _

instance : IsTotal PestRow pestLE :=
  ⟨fun a b => by
    unfold pestLE
    cases a.pest_name <;> cases b.pest_name <;> simp [optStrLE]
    exact le_total _ _⟩

instance : IsTrans PestRow pestLE :=
  ⟨fun a b c h1 h2 => by
    unfold pestLE at *
    cases ha : a.pest_name <;> cases hb : b.pest_name <;> cases hc : c.pest_name <;>
      simp_all [optStrLE]
    exact le_trans h1 h2⟩

/-- `agents.get_pest_advice`: all rows of `pest_info` matching the crop
case-insensitively, sorted ascending by `pest_name`; if the table does not
exist (`sqlite3.OperationalError`), the handler returns `[]`. -/
def get_pest_advice (tbl : Option (List PestRow)) (crop : String) : List PestRow :=
  match tbl with
  | none => []
  | some rows => List.insertionSort pestLE (rows.filter (pestRowMatches crop))

/-- The dict returned by `get_market_price`. -/
structure MarketPrice where
  market : String
  crop : String
  price_inr_per_quintal : Option Nat
deriving DecidableEq, Repr

/-- `agents.get_market_price`: `scraped` is the result of the Agmarknet
scraping loop (`none` = every URL failed, returned non-200, or parsed to
nothing); on `none` the hardcoded fallback dict keyed by `crop.lower()`
applies. -/
def get_market_price (scraped : Option MarketPrice) (crop : String) : MarketPrice :=
  match scraped with
  | some p => p
  | none =>
    if lowStr crop = "wheat" then ⟨"Jaipur", "Wheat", some 2200⟩
    else if lowStr crop = "mustard" then ⟨"Jaipur", "Mustard", some 5400⟩
    else ⟨"Jaipur", crop, none⟩

/-- The parsed success payload of the Open-Meteo call.  The numeric JSON
values are never computed with, only carried and printed, so they are modelled
opaquely as their decimal renderings. -/
structure WeatherResp where
  temperature : Option String
  windspeed : Option String
  weathercode : Option String
  relative_humidity_2m : List String
  precipitation : List String
deriving DecidableEq, Repr

/-- The dict returned by `get_weather` (both branches build these six keys). -/
structure WeatherSnapshot where
  location : Option String
  temperature_c : Option String
  windspeed_kmh : Option String
  weathercode : Option String
  humidity : Option String
  precipitation_mm : Option String
deriving DecidableEq, Repr

/-- `agents.get_weather`: `resp = none` models any network or parsing failure
(the blanket `except Exception` branch).  `(hourly.get(k) or [None])[-1]`
yields the last element, or `None` when the list is missing or empty —
modelled by `List.getLast?`. -/
def get_weather (location : String) (resp : Option WeatherResp) : WeatherSnapshot :=
  match resp with
  | some d =>
    { location := some location
      temperature_c := d.temperature
      windspeed_kmh := d.windspeed
      weathercode := d.weathercode
      humidity := d.relative_humidity_2m.getLast?
      precipitation_mm := d.precipitation.getLast? }
  | none =>
    { location := some location
      temperature_c := none
      windspeed_kmh := none
      weathercode := none
      humidity := none
      precipitation_mm := none }

/-! ## `build_vector_db.py`

`load_data_from_sqlite` runs `SELECT *` through pandas on a *hardcoded* list
of three table names and formats each row.  Rows are modelled as lists of
nullable column values (the deployed store holds `TEXT`/`REAL` cells; values
are carried as their printed rendering, `NULL` as `none`).  pandas renders a
null cell as `None` inside the f-string. -/

/-- How a cell is rendered inside `f"{col}: {val}"`. -/
def renderVal : Option String → String
  | none => "None"
  | some s => s

/-- One row formatted as
`f"Table: {table} | " + " | ".join(f"{col}: {val}" for col, val in row.items())`. -/
def formatRow (table : String) (cols : List String) (vals : List String) : String :=
  "Table: " ++ table ++ " | " ++
    joinSep " | " (List.zipWith (fun c v => c ++ ": " ++ v) cols vals)

/-- `formatRow` on a raw (nullable) row. -/
def formatRowOpt (table : String) (cols : List String) (vals : List (Option String)) :
    String :=
  formatRow table cols (vals.map renderVal)

/-- Column order of each deployed table.  `crop_info` and `soil_data` are
rewritten by `to_sql(..., if_exists="replace", index=False)`, so they carry
exactly the DataFrame columns; `pest_info` and `govt_schemes` keep their
`CREATE TABLE` order. -/
def colsOf : String → List String
  | "crop_info" =>
    ["crop", "location", "season", "sowing_period", "harvesting_period",
     "irrigation_schedule", "fertilizer", "pests"]
  | "soil_data" =>
    ["location", "soil_type", "ph_min", "ph_max", "n_status", "p_status", "k_status"]
  | "pest_info" =>
    ["pest_name", "affected_crop", "symptoms", "management_advice"]
  | "govt_schemes" =>
    ["scheme_name", "purpose", "eligibility", "benefits", "how_to_apply"]
  | _ => []

/-- A raw table: `none` when the table does not exist in the store. -/
abbrev RawTable := Option (List (List (Option String)))

/-- The SQLite store as `build_vector_db.py` sees it (the four tables the ETL
creates). -/
structure SqliteDB where
  crop_info : RawTable
  soil_data : RawTable
  pest_info : RawTable
  govt_schemes : RawTable

/-- One entry of the list built by `load_data_from_sqlite`. -/
structure Doc where
  document : String
  source : String
deriving DecidableEq, Repr

/-- Documents contributed by one table; a missing table raises inside pandas,
is caught, printed and contributes nothing. -/
def docsOf (name : String) (tbl : RawTable) : List Doc :=
  match tbl with
  | none => []
  | some rows => rows.map (fun vals => ⟨formatRowOpt name (colsOf name) vals, name⟩)

/-- `build_vector_db.load_data_from_sqlite`: iterates the hardcoded list
`["crop_info", "pest_info", "govt_schemes"]` — note `soil_data` is not in the
list. -/
def load_data_from_sqlite (db : SqliteDB) : List Doc :=
  docsOf "crop_info" db.crop_info ++ docsOf "pest_info" db.pest_info ++
    docsOf "govt_schemes" db.govt_schemes

/-- A document as added to the Chroma collection (embeddings are computed by
the opaque sentence-transformer and add no information to the count). -/
structure IndexedDoc where
  id : String
  document : String
  source : String
deriving DecidableEq, Repr

/-- `ids = [f"{d['metadata']['source']}_{i}" for i, d in enumerate(docs)]`. -/
def mkIds (docs : List Doc) : List IndexedDoc :=
  docs.enum.map (fun p => ⟨p.2.source ++ "_" ++ toString p.1, p.2.document, p.2.source⟩)

/-- `collection.add` in batches of `batch_size = 100` over `range(0, len, 100)`. -/
def addBatches (coll : List IndexedDoc) (l : List IndexedDoc) : List IndexedDoc :=
  match l with
  | [] => coll
  | d :: rest => addBatches (coll ++ (d :: rest).take 100) ((d :: rest).drop 100)
termination_by l.length
decreasing_by simp; omega

/-- Observable outcome of one `run_vector_db_build` invocation: `err` is the
exception propagated to the caller (`none` = returned normally) and
`collection` the state of the named Chroma collection afterwards. -/
structure BuildResult where
  err : Option String
  collection : Option (List IndexedDoc)
deriving DecidableEq, Repr

/-- `build_vector_db.run_vector_db_build` on the path where the RAG libraries
load successfully.  With no documents it prints
`"No data loaded from SQLite. Aborting vector DB build."` and plainly
`return`s — no exception, and the pre-existing collection (if any) is never
touched because the delete/create happens after this check.  Otherwise the
collection is deleted (ignoring errors), created fresh, and the documents are
added in batches of 100. -/
def run_vector_db_build (db : SqliteDB) (prior : Option (List IndexedDoc)) :
    BuildResult :=
  let docs := load_data_from_sqlite db
  if docs.isEmpty then { err := none, collection := prior }
  else { err := none, collection := some (addBatches [] (mkIds docs)) }

/-- Total number of rows across all four tables of the store. -/
def totalRows (db : SqliteDB) : Nat :=
  (db.crop_info.getD []).length + (db.soil_data.getD []).length +
    (db.pest_info.getD []).length + (db.govt_schemes.getD []).length

/-- Document count of a collection state (an absent collection holds none). -/
def countDocs : Option (List IndexedDoc) → Nat
  | none => 0
  | some l => l.length

/-! ## `main.py`

The webhook's external collaborators are bundled in `Env`: the two SQLite
tables it reads through `agents`, the scraping outcome, the weather response
and the optional local LLM (an opaque text-to-text function; `none` = the
loading of `ctransformers` failed). -/

/-- External state a request runs against. -/
structure Env where
  crop_tbl : List CropRow
  pest_tbl : Option (List PestRow)
  scraped : Option MarketPrice
  weather_resp : Option WeatherResp
  llm : Option (String → String)

/-- The JSON body accepted on the text path (pydantic `WebhookText`;
`location` defaults at use site). -/
structure WebhookText where
  from_number : String
  message : String
  location : Option String
deriving DecidableEq, Repr

def wheatKeywords : List String := ["wheat", "गेहूं", "gehun", "gehu"]

def mustardKeywords : List String := ["mustard", "सरसों", "sarson"]

def PEST_KEYWORDS : List String := ["pest", "disease", "कीड़ा", "रोग", "बीमारी"]

/-- `True` when the lowercased query contains some wheat keyword. -/
def wheatHit (userQuery : String) : Bool :=
  wheatKeywords.any (fun k => strHasSub k (lowStr userQuery))

/-- `True` when the lowercased query contains some mustard keyword. -/
def mustardHit (userQuery : String) : Bool :=
  mustardKeywords.any (fun k => strHasSub k (lowStr userQuery))

/-- The keyword-based crop slot of the webhook: wheat keywords are tested
first, then mustard keywords, else no crop. -/
def resolveCrop (userQuery : String) : Option String :=
  if wheatHit userQuery then some "Wheat"
  else if mustardHit userQuery then some "Mustard"
  else none

/-- `include_pests = any(k in uq_lower for k in PEST_KEYWORDS)`. -/
def pestsWanted (userQuery : String) : Bool :=
  PEST_KEYWORDS.any (fun k => strHasSub k (lowStr userQuery))

/-- The dict built by `build_context`: `crop_info`/`market_price` stay at
their initial `None` unless a crop was resolved (outer `none`); the inner
`Option CropRow` is the lookup result (`none` = empty dict).  The
`pest_advice` key exists only when requested. -/
structure ContextBundle where
  crop_info : Option (Option CropRow)
  weather : WeatherSnapshot
  market_price : Option MarketPrice
  pest_advice : Option (List PestRow)

/-- `main.build_context`. -/
def build_context (crop : Option String) (location : String)
    (include_pest_advice : Bool) (env : Env) : ContextBundle :=
  match crop with
  | some c =>
    { crop_info := some (get_crop_advice env.crop_tbl c location)
      market_price := some (get_market_price env.scraped c)
      pest_advice :=
        if include_pest_advice then some (get_pest_advice env.pest_tbl c) else none
      weather := get_weather location env.weather_resp }
  | none =>
    { crop_info := none
      market_price := none
      pest_advice := if include_pest_advice then some [] else none
      weather := get_weather location env.weather_resp }

/-- `f"{k}={v}" for k, v in d.items() if v is not None and v != ""`. -/
def fmtPairs (pairs : List (String × Option String)) : List String :=
  pairs.filterMap (fun p =>
    match p.2 with
    | none => none
    | some v => if v = "" then none else some (p.1 ++ "=" ++ v))

/-- Item order of the `crop_info` dict built by `get_crop_advice`. -/
def cropPairs (r : CropRow) : List (String × Option String) :=
  [("crop", some r.crop), ("location", some r.location), ("season", r.season),
   ("sowing_period", r.sowing_period), ("harvesting_period", r.harvesting_period),
   ("irrigation_schedule", r.irrigation_schedule), ("fertilizer", r.fertilizer),
   ("pests", r.pests)]

/-- Item order of the weather dict. -/
def weatherPairs (w : WeatherSnapshot) : List (String × Option String) :=
  [("location", w.location), ("temperature_c", w.temperature_c),
   ("windspeed_kmh", w.windspeed_kmh), ("weathercode", w.weathercode),
   ("humidity", w.humidity), ("precipitation_mm", w.precipitation_mm)]

/-- Item order of the market-price dict. -/
def pricePairs (p : MarketPrice) : List (String × Option String) :=
  [("market", some p.market), ("crop", some p.crop),
   ("price_inr_per_quintal", p.price_inr_per_quintal.map toString)]

/-- `f"{n}: symptoms={s}; management={m}"` (null fields print as `None`). -/
def pestLine (p : PestRow) : String :=
  renderVal p.pest_name ++ ": symptoms=" ++ renderVal p.symptoms ++
    "; management=" ++ renderVal p.management_advice

/-- `main.format_context_string`.  `data.get(k) or {}` collapses an unset key
and an empty dict; a dict is appended only when truthy (the weather and price
dicts always carry their keys, hence are always truthy when present). -/
def format_context_string (data : ContextBundle) (user_query : String)
    (crop : Option String) (location : String) : String :=
  let parts :=
    ["User: " ++ user_query, "Location: " ++ location] ++
    (match crop with | some c => ["Crop: " ++ c] | none => []) ++
    (match data.crop_info with
     | some (some r) => ["Crop Info: " ++ joinSep ", " (fmtPairs (cropPairs r))]
     | _ => []) ++
    ["Weather: " ++ joinSep ", " (fmtPairs (weatherPairs data.weather))] ++
    (match data.market_price with
     | some p => ["Market Price: " ++ joinSep ", " (fmtPairs (pricePairs p))]
     | none => []) ++
    (match data.pest_advice with
     | some (p :: ps) => ["Pest Advice: " ++ joinSep " || " ((p :: ps).map pestLine)]
     | _ => [])
  joinSep " | " parts

/-- `main.run_llm_hindi`: template fallback when `ctransformers` is absent,
otherwise the opaque model applied to the assembled prompt. -/
def run_llm_hindi (llm : Option (String → String)) (context user_query : String) :
    String :=
  match llm with
  | none =>
    "कृपया ध्यान दें: ऑफ़लाइन LLM उपलब्ध नहीं है। आपके प्रश्न का संक्षिप्त उत्तर: " ++
      user_query ++ " | संदर्भ: " ++ context.take 400
  | some f =>
    f ("You are Agri-Sarthi, a helpful agricultural advisor for Jaipur farmers. " ++
       "Respond in simple, natural Hindi. Keep it concise and factual.\n\n" ++
       "Context:\n" ++ context ++ "\n\n" ++
       "User question:\n" ++ user_query ++ "\n\nउत्तर हिंदी में दें।")

/-- Observable HTTP response of the webhook (`JSONResponse` body plus
status). -/
structure HttpResponse where
  status : Nat
  ok : Bool
  answer : Option String
  transcript : Option String
  error : Option String
deriving DecidableEq, Repr

/-- Shared tail of both branches: slot filling, context, answer. -/
def answerFor (user_query location : String) (env : Env) : String :=
  let crop := resolveCrop user_query
  let data := build_context crop location (pestsWanted user_query) env
  run_llm_hindi env.llm (format_context_string data user_query crop location) user_query

/-- `main.webhook`.  `req` is the parsed JSON body (used on the JSON branch),
`formLocation`/`transcript` the form field and the `transcribe_audio` result
(used on the multipart branch; transcription failure yields `""`).  Content
negotiation is `content_type.startswith(...)` on the header, defaulting to the
empty string when absent. -/
def webhook (contentType : String) (req : WebhookText)
    (formLocation : Option String) (transcript : String) (env : Env) :
    HttpResponse :=
  if strStartsWith contentType "application/json" then
    let user_query := req.message.trim
    let location :=
      match req.location with
      | some l => if l = "" then "Jaipur, Rajasthan" else l
      | none => "Jaipur, Rajasthan"
    { status := 200, ok := true
      answer := some (answerFor user_query location env)
      transcript := none, error := none }
  else if strStartsWith contentType "multipart/form-data" then
    let location := formLocation.getD "Jaipur, Rajasthan"
    { status := 200, ok := true
      answer := some (answerFor transcript location env)
      transcript := some transcript, error := none }
  else
    { status := 400, ok := false, answer := none, transcript := none
      error := some "Unsupported content-type" }

/-! ## Predicates used in the claim statements -/

/-- The location contains none of the SQL `LIKE` wildcard characters. -/
def noWildStr (s : String) : Prop := ∀ c ∈ s.data, c ≠ '%' ∧ c ≠ '_'

/-- The string does not contain the `|` character (the separator used by the
document formatter). -/
def barFree (s : String) : Prop := '|' ∉ s.data

instance (s : String) : Decidable (noWildStr s) :=
  inferInstanceAs (Decidable (∀ c ∈ s.data, c ≠ '%' ∧ c ≠ '_'))

instance (s : String) : Decidable (barFree s) :=
  inferInstanceAs (Decidable ('|' ∉ s.data))

/-! ## Concrete fixtures used in witnesses and counterexamples -/

/-- The ETL's seeded wheat row of `crop_info`. -/
def wheatRow : CropRow :=
  { crop := "Wheat", location := "Jaipur, Rajasthan", season := some "Rabi"
    sowing_period := some "November - December"
    harvesting_period := some "March - April"
    irrigation_schedule :=
      some "First irrigation 20-25 days after sowing, then every 20-25 days depending on rainfall"
    fertilizer :=
      some "Apply 120 kg N, 60 kg P2O5, 40 kg K2O per hectare in splits as per soil test"
    pests := some "Aphids, Rust; consider timely monitoring and IPM practices" }

/-- Sample pest advisory rows (the ETL's seeds, English half of the bilingual
text). -/
def demoPests : List PestRow :=
  [{ pest_name := some "White Grub (सफ़ेद लट)", affected_crop := some "Mustard"
     symptoms := some "Roots eaten, plant wilting, sudden drying of plants."
     management_advice := some "Apply Phorate 10G granules at 10 kg/ha before sowing." },
   { pest_name := some "Aphids (माहू or चैंपा)", affected_crop := some "Wheat"
     symptoms := some "Yellowing of leaves, sticky honeydew secretion, black sooty mold."
     management_advice := some "Spray Imidacloprid 17.8% SL at 1 ml/litre of water." }]

/-- The ETL's seeded soil row (`soil_data` column order), as raw cell values. -/
def soilRowRaw : List (Option String) :=
  [some "Jaipur, Rajasthan", some "Sandy loam to loam", some "6.5", some "8.0",
   some "Low to Medium", some "Low to Medium", some "Medium"]

/-- Raw `crop_info` cells of the seeded wheat row. -/
def wheatRowRaw : List (Option String) :=
  [some "Wheat", some "Jaipur, Rajasthan", some "Rabi", some "November - December",
   some "March - April",
   some "First irrigation 20-25 days after sowing, then every 20-25 days depending on rainfall",
   some "Apply 120 kg N, 60 kg P2O5, 40 kg K2O per hectare in splits as per soil test",
   some "Aphids, Rust; consider timely monitoring and IPM practices"]

/-- A store state reachable by the ETL: one crop row, the seeded soil row,
empty pest and scheme tables. -/
def seedStoreDB : SqliteDB :=
  { crop_info := some [wheatRowRaw], soil_data := some [soilRowRaw]
    pest_info := some [], govt_schemes := some [] }

/-- A store whose four tables all exist and are all empty. -/
def emptyStoreDB : SqliteDB :=
  { crop_info := some [], soil_data := some [], pest_info := some []
    govt_schemes := some [] }

/-- A leftover collection entry from some earlier build. -/
def oneDoc : IndexedDoc :=
  { id := "crop_info_0", document := "d", source := "crop_info" }

/-- A store with a single crop row. -/
def oneRowDB : SqliteDB :=
  { crop_info := some [wheatRowRaw], soil_data := none, pest_info := none
    govt_schemes := none }

/-- An environment whose external collaborators are all unavailable. -/
def envNone : Env :=
  { crop_tbl := [], pest_tbl := none, scraped := none, weather_resp := none
    llm := none }

/-- A minimal JSON payload. -/
def reqDemo : WebhookText :=
  { from_number := "+919999999999", message := "hello", location := none }


/-! ## Basic lemmas about the string primitives -/

theorem strExt {s t : String} (h : s.data = t.data) : s = t := by
  cases s; cases t; exact congrArg String.mk h

theorem strDataApp (s t : String) : (s ++ t).data = s.data ++ t.data := rfl

theorem listHasPre_iff (n h : List Char) : listHasPre n h = true ↔ n <+: h := by
  induction n generalizing h with
  | nil => simp [listHasPre]
  | cons a as ih =>
    cases h with
    | nil => simp [listHasPre]
    | cons b bs => simp [listHasPre, ih, List.cons_prefix_cons]

theorem listHasSub_iff (n h : List Char) : listHasSub n h = true ↔ n <:+: h := by
  simp only [listHasSub, List.any_eq_true, List.mem_tails, listHasPre_iff,
    List.infix_iff_prefix_suffix]
  exact ⟨fun ⟨t, h1, h2⟩ => ⟨t, h2, h1⟩, fun ⟨t, h1, h2⟩ => ⟨t, h2, h1⟩⟩

theorem strHasSub_iff (n h : String) : strHasSub n h = true ↔ n.data <:+: h.data :=
  listHasSub_iff _ _

theorem charToNatOfNat {n : Nat} (h : n < 55296) : (Char.ofNat n).toNat = n := by
  have hv : n.isValidChar := Or.inl h
  simp [Char.ofNat, hv, Char.ofNatAux, Char.toNat, UInt32.toNat, BitVec.toNat_ofNatLt]

/-- ASCII folding maps a character either to itself or into `a`-`z`; hence it
cannot produce `%` or `_` from anything but those characters themselves. -/
theorem lowChar_eq_of_code {c w : Char} (hw : w.toNat < 97 ∨ 122 < w.toNat)
    (h : lowChar c = w) : c = w := by
  unfold lowChar at h
  split at h
  · rename_i hc
    have := congrArg Char.toNat h
    rw [charToNatOfNat (by omega)] at this
    omega
  · exact h

theorem lowStr_data (s : String) : (lowStr s).data = s.data.map lowChar := rfl

theorem lowStr_append (a b : String) : lowStr (a ++ b) = lowStr a ++ lowStr b := by
  apply strExt
  simp [lowStr_data, strDataApp]



theorem likeMatch_lit (s : List Char) (hs : ∀ c ∈ s, c ≠ '%' ∧ c ≠ '_') :
    ∀ u, likeMatch (s ++ ['%']) u = listHasPre s u := by
  induction s with
  | nil =>
    intro u
    simp only [List.nil_append, likeMatch, listHasPre, if_true]
    rw [List.any_eq_true]
    exact ⟨[], (List.mem_tails _ _).2 List.nil_suffix, rfl⟩
  | cons c cs ih =>
    intro u
    have hc := hs c (by simp)
    have ihs : ∀ x ∈ cs, x ≠ '%' ∧ x ≠ '_' := fun x hx => hs x (by simp [hx])
    cases u with
    | nil => simp [likeMatch, listHasPre, hc.1]
    | cons d ts => simp [likeMatch, listHasPre, hc.1, hc.2, ih ihs]

theorem likeMatch_wrap (s : List Char) (hs : ∀ c ∈ s, c ≠ '%' ∧ c ≠ '_')
    (t : List Char) : likeMatch ('%' :: (s ++ ['%'])) t = listHasSub s t := by
  simp only [likeMatch, if_true, listHasSub, likeMatch_lit s hs]

theorem strLike_wrap (loc t : String) (hs : noWildStr loc) :
    strLike ("%" ++ loc ++ "%") t = strHasSub loc t := by
  have hdata : ("%" ++ loc ++ "%").data = '%' :: (loc.data ++ ['%']) := by
    simp [strDataApp]
  simp only [strLike, strHasSub, hdata]
  exact likeMatch_wrap _ hs _

theorem noWildStr_lowStr {loc : String} (h : noWildStr loc) : noWildStr (lowStr loc) := by
  intro c hc
  rw [lowStr_data, List.mem_map] at hc
  obtain ⟨c0, hc0, rfl⟩ := hc
  have h0 := h c0 hc0
  constructor
  · intro he
    exact h0.1 (lowChar_eq_of_code (by decide) he)
  · intro he
    exact h0.2 (lowChar_eq_of_code (by decide) he)

theorem lowStr_wrap (loc : String) :
    lowStr ("%" ++ loc ++ "%") = "%" ++ lowStr loc ++ "%" := by
  rw [lowStr_append, lowStr_append]
  rfl

/-- For a wildcard-free location the code's `LIKE` test is exactly the
case-insensitive substring test. -/
theorem cropRowMatches_of_noWild (crop location : String) (h : noWildStr location)
    (r : CropRow) :
    cropRowMatches crop location r =
      ((lowStr r.crop == lowStr crop) &&
        strHasSub (lowStr location) (lowStr r.location)) := by
  unfold cropRowMatches
  rw [lowStr_wrap, strLike_wrap _ _ (noWildStr_lowStr h)]



theorem filterHead_none {α} (p : α → Bool) (l : List α) :
    (l.filter p).head? = none ↔ ∀ x ∈ l, p x = false := by
  rw [List.head?_eq_none_iff, List.filter_eq_nil_iff]
  simp

theorem filterHead_some {α} (p : α → Bool) {l : List α} {r : α} :
    (l.filter p).head? = some r →
      p r = true ∧ ∃ pre post, l = pre ++ r :: post ∧ ∀ x ∈ pre, p x = false := by
  induction l with
  | nil => intro h; simp at h
  | cons a t ih =>
    intro h
    by_cases ha : p a = true
    · rw [List.filter_cons_of_pos ha] at h
      simp only [List.head?_cons, Option.some.injEq] at h
      subst h
      exact ⟨ha, [], t, by simp, by simp⟩
    · rw [List.filter_cons_of_neg (by simpa using ha)] at h
      obtain ⟨hp, pre, post, hl, hpre⟩ := ih h
      refine ⟨hp, a :: pre, post, by simp [hl], ?_⟩
      intro x hx
      rcases List.mem_cons.1 hx with rfl | hx2
      · simpa using ha
      · exact hpre x hx2



theorem sepCancelL : ∀ (a1 a2 r1 r2 : List Char), '|' ∉ a1 → '|' ∉ a2 →
    a1 ++ ' ' :: '|' :: ' ' :: r1 = a2 ++ ' ' :: '|' :: ' ' :: r2 →
    a1 = a2 ∧ r1 = r2 := by
  intro a1
  induction a1 with
  | nil =>
    intro a2 r1 r2 _ h2 heq
    cases a2 with
    | nil =>
      simp only [List.nil_append, List.cons.injEq, true_and] at heq
      exact ⟨rfl, heq⟩
    | cons c t =>
      simp only [List.nil_append, List.cons_append, List.cons.injEq] at heq
      obtain ⟨hc, heq2⟩ := heq
      cases t with
      | nil => simp at heq2
      | cons c2 t2 =>
        simp only [List.cons_append, List.cons.injEq] at heq2
        obtain ⟨h3, -⟩ := heq2
        subst h3
        simp at h2
  | cons c t ih =>
    intro a2 r1 r2 h1 h2 heq
    cases a2 with
    | nil =>
      simp only [List.nil_append, List.cons_append, List.cons.injEq] at heq
      obtain ⟨hc, heq2⟩ := heq
      cases t with
      | nil => simp at heq2
      | cons c2 t2 =>
        simp only [List.cons_append, List.cons.injEq] at heq2
        obtain ⟨h3, -⟩ := heq2
        subst h3
        simp at h1
    | cons c2 t2 =>
      simp only [List.cons_append, List.cons.injEq] at heq
      obtain ⟨rfl, heq2⟩ := heq
      have ht1 : '|' ∉ t := fun hx => h1 (List.mem_cons_of_mem _ hx)
      have ht2 : '|' ∉ t2 := fun hx => h2 (List.mem_cons_of_mem _ hx)
      obtain ⟨rfl, rfl⟩ := ih t2 r1 r2 ht1 ht2 heq2
      exact ⟨rfl, rfl⟩

theorem strCancelLeft {a b c : String} (h : a ++ b = a ++ c) : b = c := by
  have hd := congrArg String.data h
  simp only [strDataApp, List.append_cancel_left_eq] at hd
  exact strExt hd

theorem strSepCancel {a1 a2 r1 r2 : String} (h1 : barFree a1) (h2 : barFree a2)
    (heq : a1 ++ " | " ++ r1 = a2 ++ " | " ++ r2) : a1 = a2 ∧ r1 = r2 := by
  have hd := congrArg String.data heq
  simp only [strDataApp, List.append_assoc] at hd
  have : a1.data ++ ' ' :: '|' :: ' ' :: r1.data = a2.data ++ ' ' :: '|' :: ' ' :: r2.data := by
    simpa using hd
  obtain ⟨ha, hr⟩ := sepCancelL _ _ _ _ h1 h2 this
  exact ⟨strExt ha, strExt hr⟩

theorem joinBar_inj : ∀ (xs ys : List String), xs.length = ys.length →
    (∀ x ∈ xs, barFree x) → (∀ y ∈ ys, barFree y) →
    joinSep " | " xs = joinSep " | " ys → xs = ys := by
  intro xs
  induction xs with
  | nil =>
    intro ys hl _ _ _
    cases ys with
    | nil => rfl
    | cons y yt => simp at hl
  | cons x xt ih =>
    intro ys hl hx hy heq
    cases ys with
    | nil => simp at hl
    | cons y yt =>
      cases xt with
      | nil =>
        cases yt with
        | nil => simpa [joinSep] using heq
        | cons y2 yt2 => simp at hl
      | cons x2 xt2 =>
        cases yt with
        | nil => simp at hl
        | cons y2 yt2 =>
          simp only [joinSep] at heq
          obtain ⟨rfl, hj⟩ :=
            strSepCancel (hx x (List.mem_cons_self _ _)) (hy y (List.mem_cons_self _ _)) heq
          have hlt : (x2 :: xt2).length = (y2 :: yt2).length := by
            simpa using hl
          have := ih (y2 :: yt2) hlt
            (fun a ha => hx a (List.mem_cons_of_mem _ ha))
            (fun a ha => hy a (List.mem_cons_of_mem _ ha)) hj
          rw [this]

theorem zipWith_colon_inj : ∀ (cols v1 v2 : List String),
    v1.length = cols.length → v2.length = cols.length →
    List.zipWith (fun c v => c ++ ": " ++ v) cols v1 =
      List.zipWith (fun c v => c ++ ": " ++ v) cols v2 → v1 = v2 := by
  intro cols
  induction cols with
  | nil =>
    intro v1 v2 hl1 hl2 _
    cases v1 with
    | nil => cases v2 with
      | nil => rfl
      | cons b t2 => simp at hl2
    | cons a t1 => simp at hl1
  | cons c ct ih =>
    intro v1 v2 hl1 hl2 heq
    cases v1 with
    | nil => simp at hl1
    | cons a t1 =>
      cases v2 with
      | nil => simp at hl2
      | cons b t2 =>
        simp only [List.zipWith_cons_cons, List.cons.injEq] at heq
        have hab : a = b := by
          have := heq.1
          have h2 : c ++ (": " ++ a) = c ++ (": " ++ b) := by
            simpa [String.append_assoc] using this
          have := strCancelLeft h2
          exact strCancelLeft this
        have := ih t1 t2 (by simpa using hl1) (by simpa using hl2) heq.2
        rw [hab, this]



theorem mem_zipWith_of_mem_zip {α β γ} (f : α → β → γ) :
    ∀ (l1 : List α) (l2 : List β) (p : α × β), p ∈ l1.zip l2 →
      f p.1 p.2 ∈ List.zipWith f l1 l2 := by
  intro l1
  induction l1 with
  | nil => intro l2 p hp; simp [List.zip] at hp
  | cons a t ih =>
    intro l2 p hp
    cases l2 with
    | nil => simp [List.zip] at hp
    | cons b t2 =>
      rcases List.mem_cons.1 hp with rfl | hp2
      · simp
      · exact List.mem_cons_of_mem _ (ih t2 p hp2)

theorem exists_of_mem_zipWith {α β γ} (f : α → β → γ) :
    ∀ (l1 : List α) (l2 : List β) (x : γ), x ∈ List.zipWith f l1 l2 →
      ∃ a ∈ l1, ∃ b ∈ l2, x = f a b := by
  intro l1
  induction l1 with
  | nil => intro l2 x hx; simp at hx
  | cons a t ih =>
    intro l2 x hx
    cases l2 with
    | nil => simp at hx
    | cons b t2 =>
      rcases List.mem_cons.1 hx with rfl | hx2
      · exact ⟨a, List.mem_cons_self _ _, b, List.mem_cons_self _ _, rfl⟩
      · obtain ⟨a', ha, b', hb, rfl⟩ := ih t2 x hx2
        exact ⟨a', List.mem_cons_of_mem _ ha, b', List.mem_cons_of_mem _ hb, rfl⟩

theorem barFree_seg {c v : String} (hc : barFree c) (hv : barFree v) :
    barFree (c ++ ": " ++ v) := by
  unfold barFree at *
  simp only [strDataApp, List.mem_append]
  rintro (⟨h | h⟩ | h)
  · exact hc h
  · simp at h
  · exact hv h

/-- Injectivity of the row formatter over `|`-free column names and values. -/
theorem formatRow_inj (table : String) (cols : List String) (v1 v2 : List String)
    (hl1 : v1.length = cols.length) (hl2 : v2.length = cols.length)
    (hc : ∀ c ∈ cols, barFree c) (h1 : ∀ v ∈ v1, barFree v) (h2 : ∀ v ∈ v2, barFree v)
    (heq : formatRow table cols v1 = formatRow table cols v2) : v1 = v2 := by
  unfold formatRow at heq
  have hj := strCancelLeft heq
  have hseg1 : ∀ s ∈ List.zipWith (fun c v => c ++ ": " ++ v) cols v1, barFree s := by
    intro s hs
    obtain ⟨a, ha, b, hb, rfl⟩ := exists_of_mem_zipWith _ _ _ _ hs
    exact barFree_seg (hc a ha) (h1 b hb)
  have hseg2 : ∀ s ∈ List.zipWith (fun c v => c ++ ": " ++ v) cols v2, barFree s := by
    intro s hs
    obtain ⟨a, ha, b, hb, rfl⟩ := exists_of_mem_zipWith _ _ _ _ hs
    exact barFree_seg (hc a ha) (h2 b hb)
  have hlen : (List.zipWith (fun c v => c ++ ": " ++ v) cols v1).length =
      (List.zipWith (fun c v => c ++ ": " ++ v) cols v2).length := by
    simp [List.length_zipWith, hl1, hl2]
  exact zipWith_colon_inj cols v1 v2 hl1 hl2 (joinBar_inj _ _ hlen hseg1 hseg2 hj)

theorem seg_infix_joinBar : ∀ (segs : List String) (s : String), s ∈ segs →
    s.data <:+: (joinSep " | " segs).data := by
  intro segs
  induction segs with
  | nil => simp
  | cons a t ih =>
    intro s hs
    cases t with
    | nil =>
      rcases List.mem_cons.1 hs with rfl | h
      · exact List.infix_rfl
      · simp at h
    | cons b t2 =>
      rcases List.mem_cons.1 hs with rfl | h
      · show s.data <:+: (s ++ " | " ++ joinSep " | " (b :: t2)).data
        simp only [strDataApp, List.append_assoc]
        exact (List.prefix_append _ _).isInfix
      · have := ih s h
        refine this.trans ?_
        show (joinSep " | " (b :: t2)).data <:+: (a ++ " | " ++ joinSep " | " (b :: t2)).data
        simp only [strDataApp]
        exact (List.suffix_append _ _).isInfix

/-- Every column/value pair of a row appears verbatim in the formatted text. -/
theorem field_in_formatRowOpt (table : String) (cols : List String)
    (vals : List (Option String)) (p : String × Option String) (hp : p ∈ cols.zip vals) :
    strHasSub (p.1 ++ ": " ++ renderVal p.2) (formatRowOpt table cols vals) = true := by
  rw [strHasSub_iff]
  unfold formatRowOpt formatRow
  have hmem : p.1 ++ ": " ++ renderVal p.2 ∈
      List.zipWith (fun c v => c ++ ": " ++ v) cols (vals.map renderVal) := by
    rw [List.zipWith_map_right]
    exact mem_zipWith_of_mem_zip (fun c v => c ++ ": " ++ renderVal v) cols vals p hp
  refine (seg_infix_joinBar _ _ hmem).trans ?_
  show (joinSep " | " _).data <:+: ("Table: " ++ table ++ " | " ++ joinSep " | " _).data
  simp only [strDataApp]
  exact (List.suffix_append _ _).isInfix

/-! ## Remaining build lemmas -/

theorem addBatches_eq (coll l : List IndexedDoc) : addBatches coll l = coll ++ l := by
  match l with
  | [] => simp [addBatches]
  | d :: rest =>
    rw [addBatches, addBatches_eq (coll ++ (d :: rest).take 100) ((d :: rest).drop 100)]
    rw [List.append_assoc, List.take_append_drop]
termination_by l.length
decreasing_by simp; omega

theorem mkIds_length (docs : List Doc) : (mkIds docs).length = docs.length := by
  simp [mkIds, List.enum_length]

/-! ## Claim C1 -/

/-- Claim C1, counterexample to the claim as stated: the location argument is
spliced into a SQL `LIKE` pattern, so a location consisting of the wildcard
`%` matches the seeded wheat row even though `%` is not a substring of its
location; the claimed case-insensitive *substring* semantics would return
empty. -/
theorem claim_C1_counterexample :
    get_crop_advice [wheatRow] "wheat" "%" = some wheatRow ∧
    crop_lookup_substring_described [wheatRow] "wheat" "%" = none := by
  constructor <;> decide

/-- Claim C1 (amended): `get_crop_advice` matches rows by case-insensitive
equality on the crop and a case-insensitive `LIKE` match of `%location%` on
the location, returns at most one record — the first match in table order —
and returns empty when no row matches; when the location contains no `%` or
`_` wildcard, the `LIKE` match is exactly case-insensitive substring match. -/
theorem claim_C1_amended (db : List CropRow) (crop location : String) :
    (get_crop_advice db crop location = none ↔
      ∀ r ∈ db, cropRowMatches crop location r = false) ∧
    (∀ r, get_crop_advice db crop location = some r →
      cropRowMatches crop location r = true ∧
      ∃ pre post, db = pre ++ r :: post ∧
        ∀ x ∈ pre, cropRowMatches crop location x = false) ∧
    (noWildStr location →
      get_crop_advice db crop location = crop_lookup_substring_described db crop location) := by
  refine ⟨filterHead_none _ _,
    fun r h =>
      filterHead_some (cropRowMatches crop location)
        (show (db.filter (cropRowMatches crop location)).head? = some r from h),
    fun hw => ?_⟩
  unfold get_crop_advice crop_lookup_substring_described
  congr 1
  exact List.filter_congr fun r _ => cropRowMatches_of_noWild crop location hw r

/-- Claim C1, witness: the amended theorem applied at concrete inputs. -/
theorem claim_C1_witness :
    get_crop_advice [wheatRow] "RICE" "Jaipur" = none ∧
    get_crop_advice [wheatRow] "wheat" "jaipur" =
      crop_lookup_substring_described [wheatRow] "wheat" "jaipur" :=
  ⟨(claim_C1_amended [wheatRow] "RICE" "Jaipur").1.mpr (by decide),
   (claim_C1_amended [wheatRow] "wheat" "jaipur").2.2 (by decide)⟩

/-! ## Claim C2 -/

/-- Claim C2: `get_pest_advice` returns exactly the rows whose affected crop
equals the query case-insensitively (as a permutation of the filtered table),
sorted ascending by pest name, and returns `[]` rather than an error when the
`pest_info` table does not exist. -/
theorem claim_C2 (tbl : Option (List PestRow)) (crop : String) :
    (tbl = none → get_pest_advice tbl crop = []) ∧
    (∀ rows, tbl = some rows →
      (get_pest_advice tbl crop).Perm (rows.filter (pestRowMatches crop)) ∧
      List.Sorted pestLE (get_pest_advice tbl crop)) := by
  constructor
  · rintro rfl; rfl
  · rintro rows rfl
    exact ⟨List.perm_insertionSort _ _, List.sorted_insertionSort _ _⟩

/-- Claim C2, witness: the theorem applied with an absent and a present
table. -/
theorem claim_C2_witness :
    get_pest_advice none "Wheat" = [] ∧
    (get_pest_advice (some demoPests) "wheat").Perm
      (demoPests.filter (pestRowMatches "wheat")) :=
  ⟨(claim_C2 none "Wheat").1 rfl, ((claim_C2 (some demoPests) "wheat").2 demoPests rfl).1⟩

/-! ## Claim C3 -/

/-- Claim C3: when scraping yields nothing, `get_market_price` returns the
seeded price for "wheat" (2200) and "mustard" (5400) matched
case-insensitively, and a null price for every other crop. -/
theorem claim_C3 (crop : String) :
    (lowStr crop = "wheat" →
      get_market_price none crop = ⟨"Jaipur", "Wheat", some 2200⟩) ∧
    (lowStr crop = "mustard" →
      get_market_price none crop = ⟨"Jaipur", "Mustard", some 5400⟩) ∧
    (lowStr crop ≠ "wheat" → lowStr crop ≠ "mustard" →
      (get_market_price none crop).price_inr_per_quintal = none) := by
  refine ⟨fun h => ?_, fun h => ?_, fun h1 h2 => ?_⟩
  · simp [get_market_price, h]
  · simp [get_market_price, h]
  · simp [get_market_price, h1, h2]

/-- Claim C3, witness: the three cases at concrete crops. -/
theorem claim_C3_witness :
    get_market_price none "WHEAT" = ⟨"Jaipur", "Wheat", some 2200⟩ ∧
    get_market_price none "Mustard" = ⟨"Jaipur", "Mustard", some 5400⟩ ∧
    (get_market_price none "Rice").price_inr_per_quintal = none :=
  ⟨(claim_C3 "WHEAT").1 (by decide), (claim_C3 "Mustard").2.1 (by decide),
   (claim_C3 "Rice").2.2 (by decide) (by decide)⟩

/-! ## Claim C4 -/

/-- Claim C4, counterexample to the claim as stated: a null cell is *not*
omitted (it appears as `symptoms: None` in the text), and two distinct rows of
the same table whose cells differ in two positions format to identical text
when a cell embeds the `|` separator. -/
theorem claim_C4_counterexample :
    strHasSub "symptoms: None" (formatRowOpt "pest_info" (colsOf "pest_info")
      [some "P", some "Wheat", none, some "m"]) = true ∧
    (["P | affected_crop: Wheat", "Wheat", "s", "m"] : List String) ≠
      ["P", "Wheat | affected_crop: Wheat", "s", "m"] ∧
    formatRow "pest_info" (colsOf "pest_info")
        ["P | affected_crop: Wheat", "Wheat", "s", "m"] =
      formatRow "pest_info" (colsOf "pest_info")
        ["P", "Wheat | affected_crop: Wheat", "s", "m"] := by
  refine ⟨by decide, by decide, by decide⟩

/-- Claim C4 (amended): every column/value pair of a row — null cells
rendered as `None`, not omitted — appears verbatim in the formatted text, and
two distinct rows of the same table whose rendered cells are free of the `|`
separator character never format to identical text. -/
theorem claim_C4_amended (table : String) (cols : List String) :
    (∀ (vals : List (Option String)) (p : String × Option String),
      p ∈ cols.zip vals →
      strHasSub (p.1 ++ ": " ++ renderVal p.2) (formatRowOpt table cols vals) = true) ∧
    (∀ (v1 v2 : List String), v1.length = cols.length → v2.length = cols.length →
      (∀ c ∈ cols, barFree c) → (∀ v ∈ v1, barFree v) → (∀ v ∈ v2, barFree v) →
      formatRow table cols v1 = formatRow table cols v2 → v1 = v2) :=
  ⟨fun vals p hp => field_in_formatRowOpt table cols vals p hp,
   fun v1 v2 hl1 hl2 hc h1 h2 heq => formatRow_inj table cols v1 v2 hl1 hl2 hc h1 h2 heq⟩

/-- Claim C4, witness: the amended theorem applied at concrete rows. -/
theorem claim_C4_witness :
    strHasSub "season: None" (formatRowOpt "crop_info" (colsOf "crop_info")
      [some "Wheat", some "Jaipur", none]) = true ∧
    (["a", "b"] : List String) = ["a", "b"] :=
  ⟨(claim_C4_amended "crop_info" (colsOf "crop_info")).1
      [some "Wheat", some "Jaipur", none] ("season", none) (by decide),
   (claim_C4_amended "t" ["x", "y"]).2 ["a", "b"] ["a", "b"] (by decide) (by decide)
      (by decide) (by decide) (by decide) rfl⟩

/-! ## Claim C5 -/

/-- Claim C5 is a code bug: `load_data_from_sqlite` iterates a hardcoded
three-table list instead of discovering tables dynamically, contradicting its
own docstring ("Loads all data from all tables in the SQLite DB").  On a store
holding one crop row and the seeded soil row (two structured rows), the
builder yields a single document and none sourced from `soil_data`. -/
theorem claim_C5_code_bug :
    (seedStoreDB.soil_data.getD []).length = 1 ∧
    (load_data_from_sqlite seedStoreDB).length = 1 ∧
    (load_data_from_sqlite seedStoreDB).filter (fun d => d.source == "soil_data") = [] :=
  ⟨rfl, rfl, rfl⟩

/-! ## Claim C6 -/

/-- Claim C6, counterexample to the claim as stated: on a store whose tables
are all empty, `run_vector_db_build` does not raise — it prints a message and
returns normally (`err = none`), leaving the collection state untouched. -/
theorem claim_C6_counterexample :
    run_vector_db_build emptyStoreDB none = { err := none, collection := none } := rfl

/-- Claim C6 (amended): if the build finds zero source rows across all
tables, it aborts early by printing a message and returning normally — no
exception is raised — and it neither creates a collection nor modifies an
existing one. -/
theorem claim_C6_amended (db : SqliteDB) (prior : Option (List IndexedDoc))
    (h : totalRows db = 0) :
    run_vector_db_build db prior = { err := none, collection := prior } := by
  have h1 : docsOf "crop_info" db.crop_info = [] := by
    cases hc : db.crop_info with
    | none => rfl
    | some rows =>
      have hz : rows.length = 0 := by
        unfold totalRows at h
        rw [hc] at h
        simp only [Option.getD_some, Option.getD_none] at h
        omega
      rw [List.length_eq_zero] at hz
      rw [hz]; rfl
  have h2 : docsOf "pest_info" db.pest_info = [] := by
    cases hc : db.pest_info with
    | none => rfl
    | some rows =>
      have hz : rows.length = 0 := by
        unfold totalRows at h
        rw [hc] at h
        simp only [Option.getD_some, Option.getD_none] at h
        omega
      rw [List.length_eq_zero] at hz
      rw [hz]; rfl
  have h3 : docsOf "govt_schemes" db.govt_schemes = [] := by
    cases hc : db.govt_schemes with
    | none => rfl
    | some rows =>
      have hz : rows.length = 0 := by
        unfold totalRows at h
        rw [hc] at h
        simp only [Option.getD_some, Option.getD_none] at h
        omega
      rw [List.length_eq_zero] at hz
      rw [hz]; rfl
  have hload : load_data_from_sqlite db = [] := by
    unfold load_data_from_sqlite
    rw [h1, h2, h3]
    rfl
  unfold run_vector_db_build
  rw [hload]
  rfl

/-- Claim C6, witness: the amended theorem at an all-empty store with a
pre-existing one-document collection. -/
theorem claim_C6_witness :
    totalRows emptyStoreDB = 0 ∧
    run_vector_db_build emptyStoreDB (some [oneDoc]) =
      { err := none, collection := some [oneDoc] } :=
  ⟨rfl, claim_C6_amended emptyStoreDB (some [oneDoc]) rfl⟩

/-! ## Claim C7 -/

/-- Claim C7: the rebuild is idempotent — running the build twice against the
same source data leaves the same collection state, hence the same document
count, as running it once; and whenever any documents exist, the resulting
count equals the source document count regardless of the prior collection (the
collection is recreated from scratch, so duplicates never accumulate). -/
theorem claim_C7 (db : SqliteDB) (prior : Option (List IndexedDoc)) :
    (run_vector_db_build db (run_vector_db_build db prior).collection).collection =
      (run_vector_db_build db prior).collection ∧
    countDocs (run_vector_db_build db
        (run_vector_db_build db prior).collection).collection =
      countDocs (run_vector_db_build db prior).collection ∧
    (load_data_from_sqlite db ≠ [] →
      countDocs (run_vector_db_build db prior).collection =
        (load_data_from_sqlite db).length) := by
  have hmain : (run_vector_db_build db
      (run_vector_db_build db prior).collection).collection =
      (run_vector_db_build db prior).collection := by
    by_cases h : (load_data_from_sqlite db).isEmpty <;>
      simp [run_vector_db_build, h]
  refine ⟨hmain, congrArg countDocs hmain, fun hne => ?_⟩
  have h : (load_data_from_sqlite db).isEmpty = false := by
    cases hx : (load_data_from_sqlite db).isEmpty
    · rfl
    · exact absurd (List.isEmpty_iff.mp hx) hne
  simp [run_vector_db_build, h, countDocs, addBatches_eq, mkIds_length]

/-- Claim C7, witness: on a one-row store the built collection holds exactly
the one source document. -/
theorem claim_C7_witness :
    countDocs (run_vector_db_build oneRowDB none).collection =
      (load_data_from_sqlite oneRowDB).length :=
  (claim_C7 oneRowDB none).2.2 (by decide)

/-! ## Claim C8 -/

/-- Claim C8, counterexample to the claim as stated: the failure snapshot does
not have *all* fields null — its `location` field echoes the requested
location. -/
theorem claim_C8_counterexample :
    (get_weather "Jaipur, Rajasthan" none).location ≠ none := by decide

/-- Claim C8 (amended): on any network or parsing failure `get_weather`
returns a snapshot of the same shape as the success case with the location
echoing the input and every other field null, never raising (it is total); the
location field is populated on every path. -/
theorem claim_C8_amended (location : String) :
    (get_weather location none =
      { location := some location, temperature_c := none, windspeed_kmh := none,
        weathercode := none, humidity := none, precipitation_mm := none }) ∧
    (∀ resp, (get_weather location resp).location = some location) := by
  refine ⟨rfl, fun resp => ?_⟩
  cases resp <;> rfl

/-! ## Claim C9 -/

/-- Claim C9: a webhook request whose content type starts with neither
`application/json` nor `multipart/form-data` is answered with HTTP 400 and a
JSON body carrying `ok = false` and an error string. -/
theorem claim_C9 (contentType : String) (req : WebhookText)
    (formLocation : Option String) (transcript : String) (env : Env)
    (h1 : strStartsWith contentType "application/json" = false)
    (h2 : strStartsWith contentType "multipart/form-data" = false) :
    webhook contentType req formLocation transcript env =
      { status := 400, ok := false, answer := none, transcript := none,
        error := some "Unsupported content-type" } := by
  unfold webhook
  rw [h1, h2]
  rfl

/-- Claim C9, witness: a `text/plain` request. -/
theorem claim_C9_witness :
    webhook "text/plain" reqDemo none "" envNone =
      { status := 400, ok := false, answer := none, transcript := none,
        error := some "Unsupported content-type" } :=
  claim_C9 "text/plain" reqDemo none "" envNone (by decide) (by decide)

/-! ## Claim C10 -/

/-- Claim C10: wheat keywords take precedence — a message containing both a
wheat synonym and a mustard synonym resolves the crop slot to "Wheat"; a
message containing neither resolves no crop, and the context bundle then
carries no crop info and no market price. -/
theorem claim_C10 (msg location : String) (inc : Bool) (env : Env) :
    (wheatHit msg = true → mustardHit msg = true → resolveCrop msg = some "Wheat") ∧
    (wheatHit msg = false → mustardHit msg = false →
      resolveCrop msg = none ∧
      (build_context (resolveCrop msg) location inc env).crop_info = none ∧
      (build_context (resolveCrop msg) location inc env).market_price = none) := by
  constructor
  · intro hw _
    simp [resolveCrop, hw]
  · intro hw hm
    have hr : resolveCrop msg = none := by simp [resolveCrop, hw, hm]
    rw [hr]
    exact ⟨rfl, rfl, rfl⟩

/-- Claim C10, witness: a bilingual message naming both crops resolves to
Wheat; a message naming neither leaves the bundle without crop info. -/
theorem claim_C10_witness :
    resolveCrop "wheat ya sarson?" = some "Wheat" ∧
    (build_context (resolveCrop "namaste") "Jaipur, Rajasthan" false envNone).crop_info
      = none :=
  ⟨(claim_C10 "wheat ya sarson?" "Jaipur, Rajasthan" false envNone).1
      (by decide) (by decide),
   ((claim_C10 "namaste" "Jaipur, Rajasthan" false envNone).2
      (by decide) (by decide)).2.1⟩

end AgriSarthi
